import Mathlib

/-!
Shallow embedding of `backend/app.py` from the filmshake-film-predictions
repository: the cosine-similarity fund ranker (`recommend_funds`), the
support-type formatter (`_format_support`), the PDF table layout of
`_build_content_pdf`, and the `/api/submit` and `/api/export_pdf` endpoints.

Modelling conventions:
* JSON values are `JVal`; Python dicts are association lists.
* Python floats are modelled as exact rationals `ℚ`.  `numpy` cosine
  similarity `dot(a,b) / (norm(a)*norm(b))` is kept symbolically as the pair
  `(dot a b, sumSq a * sumSq b)`, whose float value is `num / √dsq`; the
  denominator is zero exactly when the float code divides by zero.
* Calls to the two external collaborators (the embedding service and the
  generation service, `requests.post` in the source) are modelled by oracle
  functions plus an explicit trace of `CallEvent`s recording each call.
* Python `str()` of non-integral floats and `repr` escaping are rendered via
  `toString` on `ℚ`/characters; claims never depend on those corners.
-/

namespace FilmShake

/-- A JSON value, as decoded by Flask's `request.json`. -/
inductive JVal where
  | null
  | bool (b : Bool)
  | num (q : ℚ)
  | str (s : String)
  | arr (xs : List JVal)
  | obj (kvs : List (String × JVal))
  deriving Repr

/-- A decoded JSON object (Python dict with string keys). -/
abbrev Obj := List (String × JVal)

/-- Python truthiness (`bool(v)`) for a JSON value: `None`, `False`, `0`,
`""`, `[]` and `\x7b\x7d` are falsy, everything else truthy. -/
def pyTruthy : JVal → Bool
  | .null => false
  | .bool b => b
  | .num q => !(q == 0)
  | .str s => !s.isEmpty
  | .arr xs => !xs.isEmpty
  | .obj kvs => !kvs.isEmpty

/-- Field access on a JSON object (`d.get(k)` yielding `None` when absent or
when the value is not an object). -/
def jget (v : JVal) (k : String) : Option JVal :=
  match v with
  | .obj kvs => kvs.lookup k
  | _ => none

/-- Python `str(q)` for numbers; integral values print without denominator. -/
def ratStr (q : ℚ) : String := toString q

/-- The single-quote character used by Python `repr`. -/
def sq : String := String.singleton (Char.ofNat 39)

mutual

/-- Python `str()` (at `inner := false`) and `repr()` (at `inner := true`) of
a JSON value: scalars print as `None`/`True`/`False`/numbers/strings, lists
and dicts print recursively with `repr` applied to the elements. -/
def pyShow (inner : Bool) : JVal → String
  | .null => "None"
  | .bool b => if b then "True" else "False"
  | .num q => ratStr q
  | .str s => if inner then sq ++ s ++ sq else s
  | .arr xs => "[" ++ pyShowList xs ++ "]"
  | .obj kvs => "\x7b" ++ pyShowPairs kvs ++ "\x7d"

/-- The comma-separated element reprs inside a printed Python list. -/
def pyShowList : List JVal → String
  | [] => ""
  | [x] => pyShow true x
  | x :: y :: xs => pyShow true x ++ ", " ++ pyShowList (y :: xs)

/-- The comma-separated `key: value` reprs inside a printed Python dict. -/
def pyShowPairs : List (String × JVal) → String
  | [] => ""
  | [(k, v)] => sq ++ k ++ sq ++ ": " ++ pyShow true v
  | (k, v) :: kv :: kvs =>
      sq ++ k ++ sq ++ ": " ++ pyShow true v ++ ", " ++ pyShowPairs (kv :: kvs)

end

/-- The escaping of one character inside a `json.dumps` string literal. -/
def jsonEscapeChar (c : Char) : List Char :=
  if c = '\\' ∨ c = '"' then ['\\', c] else [c]

/-- JSON string literal as emitted by `json.dumps` (quote and escape). -/
def jsonStrLit (s : String) : String :=
  "\"" ++ String.mk ((s.toList.map jsonEscapeChar).flatten) ++ "\""

mutual

/-- `json.dumps(v, ensure_ascii=False)` with the default separators. -/
def jsonDumps : JVal → String
  | .null => "null"
  | .bool b => if b then "true" else "false"
  | .num q => ratStr q
  | .str s => jsonStrLit s
  | .arr xs => "[" ++ jsonDumpsList xs ++ "]"
  | .obj kvs => "\x7b" ++ jsonDumpsPairs kvs ++ "\x7d"

/-- The comma-separated serialized elements of a JSON array. -/
def jsonDumpsList : List JVal → String
  | [] => ""
  | [x] => jsonDumps x
  | x :: y :: xs => jsonDumps x ++ ", " ++ jsonDumpsList (y :: xs)

/-- The comma-separated serialized `"key": value` pairs of a JSON object. -/
def jsonDumpsPairs : List (String × JVal) → String
  | [] => ""
  | [(k, v)] => jsonStrLit k ++ ": " ++ jsonDumps v
  | (k, v) :: kv :: kvs =>
      jsonStrLit k ++ ": " ++ jsonDumps v ++ ", " ++ jsonDumpsPairs (kv :: kvs)

end

/-- Python `s.strip(chars)`: remove any of the characters `cs` from both ends. -/
def stripChars (cs : List Char) (s : String) : String :=
  String.mk (((s.toList.dropWhile (· ∈ cs)).reverse.dropWhile (· ∈ cs)).reverse)

/-- Python `s.strip()`: remove whitespace from both ends. -/
def pyStrip (s : String) : String :=
  String.mk (((s.toList.dropWhile Char.isWhitespace).reverse.dropWhile
    Char.isWhitespace).reverse)

/-- `s.replace("\n", "<br/>")` as applied to the summary text. -/
def replaceNewlines (s : String) : String :=
  String.mk ((s.toList.map
    (fun c => if c = '\n' then "<br/>".toList else [c])).flatten)

/-! ### Cosine similarity (`cosine_similarity` in app.py) -/

/-- `np.dot(a, b)` on 1-D arrays (all call sites use equal lengths). -/
def dotL (a b : List ℚ) : ℚ := (List.zipWith (· * ·) a b).sum

/-- The square of `np.linalg.norm(a)`: the sum of the squares of the entries. -/
def sumSq (a : List ℚ) : ℚ := (a.map (fun x => x * x)).sum

/-- The value of `dot(a,b) / (norm(a) * norm(b))`, kept symbolically: the float
result is `num / Real.sqrt dsq`.  When `dsq = 0` the Python code divides by
zero and (since then `num = 0` as well) numpy produces NaN. -/
structure CosSim where
  num : ℚ
  dsq : ℚ
  deriving Repr, DecidableEq

/-- `cosine_similarity(a, b)` from app.py:
`float(np.dot(a, b) / (np.linalg.norm(a) * np.linalg.norm(b)))`. -/
def cosine_similarity (a b : List ℚ) : CosSim :=
  ⟨dotL a b, sumSq a * sumSq b⟩

/-- Decidable comparison of two symbolic cosine values, by sign analysis and
squaring; for `0 < dsq` on both sides this agrees with `≤` on the real values
`num / √dsq` (proved in `CosSim.le_iff_rval` below). -/
def CosSim.le (x y : CosSim) : Bool :=
  if 0 ≤ x.num then
    decide (0 ≤ y.num) && decide (x.num ^ 2 * y.dsq ≤ y.num ^ 2 * x.dsq)
  else
    decide (0 ≤ y.num) || decide (y.num ^ 2 * x.dsq ≤ x.num ^ 2 * y.dsq)

/-- `sims[i]`, with a harmless in-range default for out-of-range indices. -/
def simAt (sims : List CosSim) (i : ℕ) : CosSim := sims.getD i ⟨0, 1⟩

/-- The comparison used to sort indices: `i` may precede `j` iff
`sims[j] ≤ sims[i]` (descending order). -/
def rankLe (sims : List CosSim) (i j : ℕ) : Prop :=
  CosSim.le (simAt sims j) (simAt sims i) = true

instance (sims : List CosSim) : DecidableRel (rankLe sims) :=
  fun _ _ => instDecidableEqBool _ _

/-- `sorted(range(len(sims)), key=lambda i: sims[i], reverse=True)`:
Python's `sorted` is a stable sort, here modelled by insertion sort (which is
stable) on the index list, descending by similarity. -/
def rankIndices (sims : List CosSim) : List ℕ :=
  List.insertionSort (rankLe sims) (List.range sims.length)

/-- All similarity values in a list have positive denominator (the query and
every catalog embedding have non-zero norm). -/
def ValidSims (sims : List CosSim) : Prop := ∀ c ∈ sims, 0 < c.dsq

/-! ### The ranker (`recommend_funds` in app.py) -/

/-- One recorded call to an external collaborator. -/
inductive CallEvent where
  | embed (prompt : String)
  | generate (prompt : String)
  deriving Repr, DecidableEq

/-- Numeric coercion of a JSON scalar (embedding entries are numbers). -/
def ratOf : JVal → ℚ
  | .num q => q
  | _ => 0

/-- `f['embedding']` of a catalog item. -/
def getEmbedding (f : JVal) : List ℚ :=
  match jget f "embedding" with
  | some (.arr xs) => xs.map ratOf
  | _ => []

/-- `str(v)` of a looked-up submission field (`submission[k]` in an f-string;
missing fields are rendered from `None`, where Python would raise KeyError —
both endpoints validate presence before calling the ranker). -/
def fieldStr (data : Obj) (k : String) : String :=
  pyShow false ((data.lookup k).getD .null)

/-- An element of `support_needed` as joined by `', '.join(...)` (the code
assumes a list of strings). -/
def strOf : JVal → String
  | .str s => s
  | v => pyShow false v

/-- `', '.join(submission['support_needed'])`. -/
def joinNeeds (data : Obj) : String :=
  match data.lookup "support_needed" with
  | some (.arr xs) => ", ".intercalate (xs.map strOf)
  | _ => ""

/-- The `sub_text` built by `recommend_funds`. -/
def subText (submission : Obj) : String :=
  "Title: " ++ fieldStr submission "project_title" ++ ". " ++
  "Location: " ++ fieldStr submission "project_location" ++ ". " ++
  "Type: " ++ fieldStr submission "project_type" ++ ". " ++
  "Description: " ++ fieldStr submission "project_desc" ++ ". " ++
  "Stage: " ++ fieldStr submission "project_stage" ++ ". " ++
  "Amount: " ++ fieldStr submission "amount_requested" ++ ". " ++
  "Needs: " ++ joinNeeds submission ++ "."

/-- `recommend_funds(submission, top_k)` from app.py, with the catalog
(`load_funds()`) and the embedding collaborator (`get_embedding`) passed as
parameters, and the collaborator calls recorded in the returned trace.
`if not funds: return []` short-circuits before any embedding call. -/
def recommend_funds (embC : String → List ℚ) (funds : List JVal)
    (submission : Obj) (top_k : ℕ) : List JVal × List CallEvent :=
  match funds with
  | [] => ([], [])
  | _ =>
    let sub_text := subText submission
    let sub_emb := embC sub_text
    let sims := funds.map (fun f => cosine_similarity sub_emb (getEmbedding f))
    let top_idxs := (rankIndices sims).take top_k
    (top_idxs.map (fun i => funds.getD i .null), [.embed sub_text])

/-! ### `_format_support` in app.py -/

/-- `x.get(k, "")` followed by `str(...)`. -/
def getStrD (kvs : List (String × JVal)) (k : String) : String :=
  pyShow false ((kvs.lookup k).getD (.str ""))

/-- The characters stripped by `.strip(" — ".strip())`, i.e. `.strip(" —")`:
a space or an em-dash. -/
def dashSpace : List Char := [' ', '—']

/-- The `"type — topic"` text of a structured entry:
`" — ".join([str(x.get("type","")).strip(), str(x.get("topic","")).strip()]).strip(" —")`. -/
def entryText (kvs : List (String × JVal)) : String :=
  stripChars dashSpace (pyStrip (getStrD kvs "type") ++ " — " ++ pyStrip (getStrD kvs "topic"))

/-- One element of a support list: dicts render via `entryText` with a
`json.dumps` fallback when that is empty; anything else renders via `str`. -/
def supportItem : JVal → String
  | .obj kvs => let t := entryText kvs; if t = "" then jsonDumps (.obj kvs) else t
  | v => pyShow false v

/-- `_format_support(s)` from app.py: `None` ↦ `""`; strings unchanged; lists
render elementwise and join the non-empty renderings with `"; "`; dicts render
as `"type — topic"` (falling back to `json.dumps` when that strips to empty);
anything else falls back to `str(s)`. -/
def format_support : JVal → String
  | .null => ""
  | .str s => s
  | .arr xs => "; ".intercalate ((xs.map supportItem).filter (fun o => o ≠ ""))
  | .obj kvs => let t := entryText kvs; if t = "" then jsonDumps (.obj kvs) else t
  | v => pyShow false v

/-! ### `_build_content_pdf` in app.py (layout model) -/

/-- `reportlab.lib.units.cm` (points per centimetre, `72 / 2.54`). -/
def cmPt : ℚ := 3600 / 127

/-- `SIDE_CM = 0.8` (side margins in centimetres). -/
def SIDE_CM : ℚ := 0.8

/-- The A4-ish page width used by `_build_content_pdf`. -/
def page_w : ℚ := 595.27

/-- `doc.width`: the content width of the `BaseDocTemplate`
(page width minus the two side margins of `SIDE_CM * cm` each). -/
def docWidth : ℚ := page_w - SIDE_CM * cmPt - SIDE_CM * cmPt

/-- `COLS`: the proportional column fractions. -/
def COLS : List ℚ := [0.045, 0.18, 0.18, 0.23, 0.12, 0.10, 0.115, 0.03]

/-- The two `if col_widths[i] < MINW[i]` adjustments: raise columns 6 (Amount)
and 7 (Link) to their minimum widths 80 and 48, deducting each deficit from
column 3 (Type / Support), floored at 60. -/
def adjustColWidths (ws : List ℚ) : List ℚ :=
  let w6 := ws.getD 6 0
  let ws1 :=
    if w6 < 80 then (ws.set 6 80).set 3 (max 60 (ws.getD 3 0 - (80 - w6))) else ws
  let w7 := ws1.getD 7 0
  if w7 < 48 then (ws1.set 7 48).set 3 (max 60 (ws1.getD 3 0 - (48 - w7))) else ws1

/-- `col_widths` as computed in `_build_content_pdf`, as a function of the
content width: `[doc.width * p for p in COLS]` followed by the minimum-width
adjustments. -/
def computeColWidths (w : ℚ) : List ℚ :=
  adjustColWidths (COLS.map (fun p => w * p))

/-- The link cell of a table row: href and label of the `<link>` paragraph. -/
structure LinkCell where
  href : String
  label : String
  deriving Repr, DecidableEq

/-- One rendered row of the "Matched Funds" table (the strings placed in the
eight cells; paragraph styling is not modelled). -/
structure Row where
  idx : ℕ
  fund_name : String
  organization : String
  support : String
  location : String
  status : String
  amount : String
  link : LinkCell
  deriving Repr, DecidableEq

/-- `(f.get(k) or "")`: a missing key or `None` (or any falsy value) yields
`""`; a string value is returned unchanged.  (A truthy non-string value would
make the subsequent `.strip()` raise in Python; no claim exercises that.) -/
def getStrOrEmpty (f : JVal) (k : String) : String :=
  match jget f k with
  | some (.str s) => s
  | _ => ""

/-- One iteration of the row loop in `_build_content_pdf`. -/
def buildRow (i : ℕ) (f : JVal) : Row :=
  let link := pyStrip (getStrOrEmpty f "link")
  { idx := i
    fund_name := pyStrip (getStrOrEmpty f "fund_name")
    organization := pyStrip (getStrOrEmpty f "organization")
    support := format_support ((jget f "support_type_and_topic").getD .null)
    location := pyStrip (getStrOrEmpty f "location")
    status := pyStrip (getStrOrEmpty f "status")
    amount :=
      let a := pyStrip (getStrOrEmpty f "amount")
      if a = "" then "N/A" else a
    link := { href := link, label := if link = "" then "" else "Open" } }

/-- The content-level outcome of `_build_content_pdf`: the chip texts, the
optional summary panel text, the table column widths and the table rows. -/
structure ContentPdf where
  chips : List String
  summary : Option String
  colWidths : List ℚ
  rows : List Row
  deriving Repr, DecidableEq

/-- `_build_content_pdf(data, funds, summary_text)`, at the level of content:
chips, the optional AI-recommendation panel, the adjusted column widths and
the per-fund table rows (page geometry, colors and fonts are not modelled). -/
def build_content_pdf (data : Obj) (funds : List JVal) (summary_text : String) :
    ContentPdf :=
  { chips :=
      [ "Title: " ++ fieldStr data "project_title"
      , "Location: " ++ fieldStr data "project_location"
      , "Type: " ++ fieldStr data "project_type"
      , "Stage: " ++ fieldStr data "project_stage"
      , "Budget: " ++ fieldStr data "currency" ++ " " ++ fieldStr data "amount_requested" ]
    summary :=
      if pyStrip summary_text = "" then none
      else some (replaceNewlines summary_text)
    colWidths := computeColWidths docWidth
    rows := (List.enumFrom 1 funds).map (fun p => buildRow p.1 p.2) }

/-! ### The `/api/submit` and `/api/export_pdf` endpoints -/

/-- An HTTP response of the two POST endpoints, at the level the claims need:
a JSON error with status code, the JSON success payload of `/api/submit`, or
the rendered PDF of `/api/export_pdf`. -/
inductive Resp where
  | err (code : ℕ) (msg : String)
  | okJson (funds : List JVal) (summary : String)
  | pdfFile (doc : ContentPdf)
  deriving Repr

/-- The `required` field list shared by both endpoints. -/
def required_fields : List String :=
  ["project_title", "project_location", "project_type", "project_desc",
   "project_stage", "amount_requested", "currency", "support_needed"]

/-- `not (field not in data or not data[field])`: the field is present and
its value is truthy. -/
def truthyField (data : Obj) (f : String) : Bool :=
  match data.lookup f with
  | some v => pyTruthy v
  | none => false

/-- The `for field in required:` validation loop: the first required field
that is absent or falsy, if any. -/
def findMissing (data : Obj) : Option String :=
  required_fields.find? (fun f => !truthyField data f)

/-- `f.get(k, '')` rendered by an f-string. -/
def jgetStr (f : JVal) (k : String) : String :=
  pyShow false ((jget f k).getD (.str ""))

/-- One numbered line of the fund `context` string built for the LLM. -/
def contextLine (i : ℕ) (f : JVal) : String :=
  toString i ++ ". " ++ jgetStr f "fund_name" ++ " (" ++ jgetStr f "organization" ++
  ") - " ++ jgetStr f "description" ++ " [Location: " ++ jgetStr f "location" ++
  ", Supports: " ++ jgetStr f "support_type_and_topic" ++ "]\nLink: " ++
  jgetStr f "link" ++ "\n\n"

/-- The fund `context` string (`for i, f in enumerate(funds, 1): context += ...`). -/
def mkContext (funds : List JVal) : String :=
  String.join ((List.enumFrom 1 funds).map (fun p => contextLine p.1 p.2))

/-- The `user_proj` block shared by both endpoints. -/
def userProj (data : Obj) : String :=
  "Title: " ++ fieldStr data "project_title" ++ "\n" ++
  "Type: " ++ fieldStr data "project_type" ++ "\n" ++
  "Description: " ++ fieldStr data "project_desc" ++ "\n" ++
  "Stage: " ++ fieldStr data "project_stage" ++ "\n" ++
  "Location: " ++ fieldStr data "project_location" ++ "\n" ++
  "Needs: " ++ joinNeeds data ++ "\n" ++
  "Amount: " ++ fieldStr data "currency" ++ " " ++ fieldStr data "amount_requested" ++ "\n"

/-- The LLM prompt shared by both endpoints. -/
def mkPrompt (data : Obj) (context : String) : String :=
  "Given the filmmaker's project details:\n" ++ userProj data ++ "\n" ++
  "And the following matching film funds:\n" ++ context ++ "\n" ++
  "Recommend which funds are most relevant for this project and briefly explain why." ++
  "Dont make any style like bold underline (markdown). just plain text"

/-- `(data.get(k) or "")` on the request object. -/
def dataStrOrEmpty (data : Obj) (k : String) : String :=
  match data.lookup k with
  | some (.str s) => s
  | _ => ""

/-- The `/api/submit` handler: validate the eight required fields (rejecting
with HTTP 400 before any collaborator call), rank the catalog, ask the
generation collaborator for a summary, and return both. -/
def submit (embC : String → List ℚ) (genC : String → String)
    (catalog : List JVal) (data : Obj) : Resp × List CallEvent :=
  match findMissing data with
  | some field => (.err 400 ("Missing required field: " ++ field), [])
  | none =>
    let rec_ := recommend_funds embC catalog data 25
    let prompt := mkPrompt data (mkContext rec_.1)
    let summary := genC prompt
    (.okJson rec_.1 summary, rec_.2 ++ [.generate prompt])

/-- The `/api/export_pdf` handler: validate, then use the caller-supplied
`recommended_funds` when it is a non-empty list (`provided_funds and
isinstance(provided_funds, list)`) and otherwise recompute the ranking; use
the caller-supplied `llm_summary` when non-blank and otherwise ask the
generation collaborator; finally render the PDF. -/
def export_pdf (embC : String → List ℚ) (genC : String → String)
    (catalog : List JVal) (data : Obj) : Resp × List CallEvent :=
  match findMissing data with
  | some field => (.err 400 ("Missing required field: " ++ field), [])
  | none =>
    let provided_summary := pyStrip (dataStrOrEmpty data "llm_summary")
    let fundsSel : List JVal × List CallEvent :=
      match data.lookup "recommended_funds" with
      | some (.arr (x :: xs)) => (x :: xs, [])
      | _ => recommend_funds embC catalog data 25
    let summarySel : String × List CallEvent :=
      if provided_summary = "" then
        let prompt := mkPrompt data (mkContext fundsSel.1)
        (genC prompt, [.generate prompt])
      else (provided_summary, [])
    (.pdfFile (build_content_pdf data fundsSel.1 summarySel.1),
     fundsSel.2 ++ summarySel.2)

/-- Whether a trace event is a call to the embedding collaborator. -/
def CallEvent.isEmbed : CallEvent → Bool
  | .embed _ => true
  | .generate _ => false

/-- The table rows of a PDF response (empty for non-PDF responses). -/
def Resp.pdfRows : Resp → List Row
  | .pdfFile d => d.rows
  | _ => []

/-- The `sims` list of `recommend_funds`: the cosine similarity of the query
embedding against each catalog item's embedding, in catalog order. -/
def simsOf (embC : String → List ℚ) (funds : List JVal) (submission : Obj) :
    List CosSim :=
  funds.map (fun f => cosine_similarity (embC (subText submission)) (getEmbedding f))

/-- A constant embedding oracle used by witnesses. -/
def c1Emb : String → List ℚ := fun _ => [1]

/-- A one-item catalog used by witnesses. -/
def c1Fund : JVal := .obj [("embedding", .arr [.num 1])]

/-- The concrete `/api/export_pdf` request body used to refute C10: all eight
required fields are present and truthy, and `recommended_funds` is the
explicitly empty list. -/
def c10Data : Obj :=
  [("project_title", .str "T"), ("project_location", .str "L"),
   ("project_type", .str "Ty"), ("project_desc", .str "D"),
   ("project_stage", .str "S"), ("amount_requested", .str "100"),
   ("currency", .str "EUR"), ("support_needed", .arr [.str "x"]),
   ("recommended_funds", .arr [])]

/-! ## Theorems -/

/-- C4: for every submission, embedding oracle and top-k, an empty catalog
makes `recommend_funds` return the empty ranking with an empty call trace —
the embedding collaborator is never invoked. -/
theorem recommend_funds_empty_catalog (embC : String → List ℚ)
    (submission : Obj) (top_k : ℕ) :
    recommend_funds embC [] submission top_k = ([], []) := rfl

/-- C2: at the pair a = [0.0], b = [1.0] (the first vector all-zero) the
code's `cosine_similarity` computes numerator `dot(a,b) = 0` and denominator
`norm(a) * norm(b) = 0`: the float expression is `0.0 / 0.0`, which numpy
evaluates to NaN.  The code has no fallback branch, so it does not return the
similarity 0 the specification requires. -/
theorem cosine_similarity_zero_vector_divides_by_zero :
    (cosine_similarity [(0 : ℚ)] [(1 : ℚ)]).num = 0 ∧
    (cosine_similarity [(0 : ℚ)] [(1 : ℚ)]).dsq = 0 := by
  constructor <;> norm_num [cosine_similarity, dotL, sumSq]

/-- C5 counterexample: `_format_support` maps the record with both halves
empty to its `json.dumps` serialization, not to `""`, and drops empty
renderings from a list join (`["A", ""]` gives `"A"`, not `"A; "`). -/
theorem format_support_counterexample :
    format_support (.obj [("type", .str ""), ("topic", .str "")]) ≠ "" ∧
    format_support (.arr [.str "A", .str ""]) ≠ "A; " := by
  constructor <;> decide

/-- C5 amended: `_format_support` maps `None` and `""` to `""`, any string to
itself, a record with type and topic to `"type — topic"` with the dash (and
surrounding spaces) omitted when either half is empty — except that a record
whose two halves are both empty falls back to its `json.dumps` serialization —
a list to the per-entry renderings with the empty ones dropped, joined by
`"; "`, and any other shape to its generic `str()` serialization. -/
theorem format_support_spec :
    format_support .null = "" ∧
    (∀ s : String, format_support (.str s) = s) ∧
    format_support (.obj [("type", .str "Grant"), ("topic", .str "Documentary")]) =
      "Grant — Documentary" ∧
    format_support (.obj [("type", .str "Grant"), ("topic", .str "")]) = "Grant" ∧
    format_support (.obj [("type", .str ""), ("topic", .str "Documentary")]) =
      "Documentary" ∧
    format_support (.obj [("type", .str ""), ("topic", .str "")]) =
      "\x7b\"type\": \"\", \"topic\": \"\"\x7d" ∧
    format_support (.arr [.str "A", .str "B"]) = "A; B" ∧
    format_support (.arr [.str "A", .str "", .str "B"]) = "A; B" ∧
    format_support (.num 7) = "7" := by
  refine ⟨rfl, fun s => rfl, ?_, ?_, ?_, ?_, ?_, ?_, ?_⟩ <;> decide

/-- Stripping the empty string gives the empty string. -/
theorem pyStrip_empty : pyStrip "" = "" := rfl

/-- C7: in every table row of `_build_content_pdf`, an amount field that is
missing, `None` or whitespace-only renders as the literal `"N/A"`; a link that
is missing, `None` or blank yields the blank-label link cell (href and label
both empty, hence non-clickable); a non-blank link yields the clickable cell
labeled `"Open"` with the stripped link as href. -/
theorem buildRow_amount_link (i : ℕ) (f : JVal) :
    ((jget f "amount" = none ∨ jget f "amount" = some .null ∨
      (∃ s, jget f "amount" = some (.str s) ∧ pyStrip s = "")) →
      (buildRow i f).amount = "N/A") ∧
    ((jget f "link" = none ∨ jget f "link" = some .null ∨
      (∃ s, jget f "link" = some (.str s) ∧ pyStrip s = "")) →
      (buildRow i f).link = { href := "", label := "" }) ∧
    (∀ s, jget f "link" = some (.str s) → pyStrip s ≠ "" →
      (buildRow i f).link = { href := pyStrip s, label := "Open" }) := by
  refine ⟨?_, ?_, ?_⟩
  · rintro (h | h | ⟨s, h, hs⟩)
    · simp [buildRow, getStrOrEmpty, h, pyStrip_empty]
    · simp [buildRow, getStrOrEmpty, h, pyStrip_empty]
    · simp [buildRow, getStrOrEmpty, h, hs]
  · rintro (h | h | ⟨s, h, hs⟩)
    · simp [buildRow, getStrOrEmpty, h, pyStrip_empty]
    · simp [buildRow, getStrOrEmpty, h, pyStrip_empty]
    · simp [buildRow, getStrOrEmpty, h, hs]
  · intro s h hs
    simp [buildRow, getStrOrEmpty, h, hs]

/-- Closed form of the column-width computation: columns 0, 1, 2, 4, 5 keep
their proportional widths; columns 6 and 7 are raised to their minima 80 and
48; both deficits are deducted from column 3, floored at 60. -/
theorem computeColWidths_eq (w : ℚ) :
    computeColWidths w =
      [w * 0.045, w * 0.18, w * 0.18,
       max 60 (max 60 (w * 0.23 - (if w * 0.115 < 80 then 80 - w * 0.115 else 0)) -
         (if w * 0.03 < 48 then 48 - w * 0.03 else 0)),
       w * 0.12, w * 0.10, max (w * 0.115) 80, max (w * 0.03) 48] := by
  show
    (let ws1 :=
      if w * 0.115 < 80 then
        [w * 0.045, w * 0.18, w * 0.18, max 60 (w * 0.23 - (80 - w * 0.115)),
         w * 0.12, w * 0.10, (80 : ℚ), w * 0.03]
      else
        [w * 0.045, w * 0.18, w * 0.18, w * 0.23, w * 0.12, w * 0.10,
         w * 0.115, w * 0.03];
     if ws1.getD 7 0 < 48 then
       (ws1.set 7 48).set 3 (max 60 (ws1.getD 3 0 - (48 - ws1.getD 7 0)))
     else ws1) = _
  by_cases h1 : w * 0.115 < 80
  · rw [if_pos h1]
    show
      (if w * 0.03 < 48 then
        [w * 0.045, w * 0.18, w * 0.18,
         max 60 (max 60 (w * 0.23 - (80 - w * 0.115)) - (48 - w * 0.03)),
         w * 0.12, w * 0.10, (80 : ℚ), (48 : ℚ)]
       else
        [w * 0.045, w * 0.18, w * 0.18, max 60 (w * 0.23 - (80 - w * 0.115)),
         w * 0.12, w * 0.10, (80 : ℚ), w * 0.03]) = _
    by_cases h2 : w * 0.03 < 48
    · simp only [h1, h2, if_true]
      rw [max_eq_right h1.le, max_eq_right h2.le]
    · simp only [h1, h2, if_true, if_false]
      rw [sub_zero, ← max_assoc, max_self, max_eq_right h1.le,
        max_eq_left (not_lt.mp h2)]
  · rw [if_neg h1]
    have h1' : (80 : ℚ) ≤ w * 0.115 := not_lt.mp h1
    have h230 : (60 : ℚ) ≤ w * 0.23 := by linarith
    show
      (if w * 0.03 < 48 then
        [w * 0.045, w * 0.18, w * 0.18, max 60 (w * 0.23 - (48 - w * 0.03)),
         w * 0.12, w * 0.10, w * 0.115, (48 : ℚ)]
       else
        [w * 0.045, w * 0.18, w * 0.18, w * 0.23, w * 0.12, w * 0.10,
         w * 0.115, w * 0.03]) = _
    by_cases h2 : w * 0.03 < 48
    · simp only [h1, h2, if_true, if_false]
      rw [sub_zero, max_eq_right h230, max_eq_left h1', max_eq_right h2.le]
    · simp only [h1, h2, if_false]
      rw [sub_zero, sub_zero, max_eq_right h230, max_eq_right h230,
        max_eq_left h1', max_eq_left (not_lt.mp h2)]

/-- C3 amended: in the table layout, the amount column (index 6) and the link
column (index 7) are floored at their absolute minima 80 and 48; every
deficit needed to reach those minima is deducted from the Type / Support
column (index 3), which is itself floored at the absolute minimum 60; the
Organization column (index 2) always keeps its proportional width `0.18 * w`
and never absorbs any deficit. -/
theorem colWidths_min_deficit (w : ℚ) :
    (computeColWidths w).getD 2 0 = w * 0.18 ∧
    (computeColWidths w).getD 6 0 = max (w * 0.115) 80 ∧
    (computeColWidths w).getD 7 0 = max (w * 0.03) 48 ∧
    (computeColWidths w).getD 3 0 =
      max 60 (max 60 (w * 0.23 - (if w * 0.115 < 80 then 80 - w * 0.115 else 0)) -
        (if w * 0.03 < 48 then 48 - w * 0.03 else 0)) := by
  rw [computeColWidths_eq]
  exact ⟨rfl, rfl, rfl, rfl⟩

/-- C3 counterexample: at the code's actual content width, the amount
column's proportional width is below its minimum 80 (so a positive deficit
exists), yet the Organization column (index 2) keeps its full proportional
width `0.18 * doc.width` — the deficit is deducted from the Type / Support
column (index 3) instead, refuting the claim that the organization column
absorbs the deficit. -/
theorem colWidths_org_column_untouched :
    docWidth * 0.115 < 80 ∧
    (computeColWidths docWidth).getD 2 0 = docWidth * 0.18 ∧
    (computeColWidths docWidth).getD 3 0 < docWidth * 0.23 := by
  have hw : docWidth = 6983929 / 12700 := by
    norm_num [docWidth, page_w, SIDE_CM, cmPt]
  have h1 : docWidth * 0.115 < 80 := by rw [hw]; norm_num
  have h2 : docWidth * 0.03 < 48 := by rw [hw]; norm_num
  refine ⟨h1, ?_, ?_⟩
  · rw [computeColWidths_eq]
    rfl
  · rw [computeColWidths_eq]
    show max 60 (max 60 (docWidth * 0.23 -
        (if docWidth * 0.115 < 80 then 80 - docWidth * 0.115 else 0)) -
        (if docWidth * 0.03 < 48 then 48 - docWidth * 0.03 else 0)) <
      docWidth * 0.23
    rw [if_pos h1, if_pos h2, hw]
    norm_num

/-- C7 witness: a fund with a whitespace amount and a padded link renders
amount `"N/A"` and a clickable `"Open"` cell; a fund with no amount and no
link renders `"N/A"` and the blank link cell. -/
theorem buildRow_amount_link_witness :
    (buildRow 1 (.obj [("amount", .str " "), ("link", .str " http://x ")])).amount = "N/A" ∧
    (buildRow 1 (.obj [("amount", .str " "), ("link", .str " http://x ")])).link =
      { href := "http://x", label := "Open" } ∧
    (buildRow 2 (.obj [])).amount = "N/A" ∧
    (buildRow 2 (.obj [])).link = { href := "", label := "" } := by
  refine ⟨?_, ?_, ?_, ?_⟩
  · exact (buildRow_amount_link 1 (.obj [("amount", .str " "), ("link", .str " http://x ")])).1
      (Or.inr (Or.inr ⟨" ", rfl, by decide⟩))
  · exact (buildRow_amount_link 1 (.obj [("amount", .str " "), ("link", .str " http://x ")])).2.2
      " http://x " rfl (by decide)
  · exact (buildRow_amount_link 2 (.obj [])).1 (Or.inl rfl)
  · exact (buildRow_amount_link 2 (.obj [])).2.1 (Or.inl rfl)

/-- If some required field of the request object is absent or falsy, both
endpoints reject the request with the 400 "Missing required field" error of
the first failing field in the required order, with an empty call trace (no
collaborator is invoked). -/
theorem validation_rejects (embC : String → List ℚ) (genC : String → String)
    (catalog : List JVal) (data : Obj)
    (h : ∃ f ∈ required_fields, truthyField data f = false) :
    ∃ g ∈ required_fields, truthyField data g = false ∧
      submit embC genC catalog data =
        (.err 400 ("Missing required field: " ++ g), []) ∧
      export_pdf embC genC catalog data =
        (.err 400 ("Missing required field: " ++ g), []) := by
  have hsome : (findMissing data).isSome := by
    rw [findMissing, List.find?_isSome]
    obtain ⟨f, hf, hfalse⟩ := h
    exact ⟨f, hf, by simp [hfalse]⟩
  obtain ⟨g, hg⟩ := Option.isSome_iff_exists.mp hsome
  have hg' : required_fields.find? (fun f => !truthyField data f) = some g := hg
  have hmem : g ∈ required_fields := List.mem_of_find?_eq_some hg'
  have hpred : (!truthyField data g) = true :=
    List.find?_some (p := fun f => !truthyField data f) (a := g) hg'
  refine ⟨g, hmem, by simpa using hpred, ?_, ?_⟩ <;>
    simp [submit, export_pdf, hg]

/-- C6: a request to `/api/submit` or `/api/export_pdf` that lacks one of the
eight required fields is rejected by both endpoints with the HTTP 400
"Missing required field" client error, and the call trace is empty: neither
the embedding collaborator nor the generation collaborator is invoked. -/
theorem missing_field_rejected (embC : String → List ℚ) (genC : String → String)
    (catalog : List JVal) (data : Obj) (f : String)
    (hf : f ∈ required_fields) (habs : data.lookup f = none) :
    ∃ g ∈ required_fields,
      submit embC genC catalog data =
        (.err 400 ("Missing required field: " ++ g), []) ∧
      export_pdf embC genC catalog data =
        (.err 400 ("Missing required field: " ++ g), []) := by
  obtain ⟨g, hmem, _, hs, he⟩ := validation_rejects embC genC catalog data
    ⟨f, hf, by simp [truthyField, habs]⟩
  exact ⟨g, hmem, hs, he⟩

/-- C6 witness: the empty request body lacks `project_desc`, and both
endpoints answer with the 400 error and an empty collaborator-call trace. -/
theorem missing_field_rejected_witness :
    ("project_desc" ∈ required_fields ∧ List.lookup "project_desc" ([] : Obj) = none) ∧
    ∃ g ∈ required_fields,
      submit (fun _ => []) (fun _ => "") [] [] =
        (.err 400 ("Missing required field: " ++ g), []) ∧
      export_pdf (fun _ => []) (fun _ => "") [] [] =
        (.err 400 ("Missing required field: " ++ g), []) :=
  ⟨⟨by decide, rfl⟩,
   missing_field_rejected (fun _ => []) (fun _ => "") [] [] "project_desc"
     (by decide) rfl⟩

/-- C9: a request in which a required field is present but falsy (empty
string, empty list, the number 0, or null) is rejected by both endpoints with
the same HTTP 400 "Missing required field" client error as an absent field,
with no collaborator call — the validation tests truthiness, not presence. -/
theorem falsy_field_rejected (embC : String → List ℚ) (genC : String → String)
    (catalog : List JVal) (data : Obj) (f : String) (v : JVal)
    (hf : f ∈ required_fields) (hv : data.lookup f = some v)
    (hfalsy : pyTruthy v = false) :
    ∃ g ∈ required_fields,
      submit embC genC catalog data =
        (.err 400 ("Missing required field: " ++ g), []) ∧
      export_pdf embC genC catalog data =
        (.err 400 ("Missing required field: " ++ g), []) := by
  obtain ⟨g, hmem, _, hs, he⟩ := validation_rejects embC genC catalog data
    ⟨f, hf, by simp [truthyField, hv, hfalsy]⟩
  exact ⟨g, hmem, hs, he⟩

/-- C9 witness: a request carrying `amount_requested = 0` (present but falsy)
is rejected by both endpoints with the 400 error and an empty trace. -/
theorem falsy_field_rejected_witness :
    ("amount_requested" ∈ required_fields ∧
      List.lookup "amount_requested" [("amount_requested", JVal.num 0)] =
        some (JVal.num 0) ∧
      pyTruthy (JVal.num 0) = false) ∧
    ∃ g ∈ required_fields,
      submit (fun _ => []) (fun _ => "") [] [("amount_requested", JVal.num 0)] =
        (.err 400 ("Missing required field: " ++ g), []) ∧
      export_pdf (fun _ => []) (fun _ => "") [] [("amount_requested", JVal.num 0)] =
        (.err 400 ("Missing required field: " ++ g), []) :=
  ⟨⟨by decide, rfl, rfl⟩,
   falsy_field_rejected (fun _ => []) (fun _ => "") []
     [("amount_requested", JVal.num 0)] "amount_requested" (JVal.num 0)
     (by decide) rfl rfl⟩

/-- The call trace of the ranker on a non-empty catalog is exactly one
embedding call on the submission text. -/
theorem recommend_funds_trace (embC : String → List ℚ) (c : JVal)
    (cs : List JVal) (data : Obj) (k : ℕ) :
    (recommend_funds embC (c :: cs) data k).2 = [.embed (subText data)] := rfl

/-- C10 amended: for a validated `/api/export_pdf` request, the
caller-supplied `recommended_funds` list is used for rendering exactly when
it is a non-empty list (and then the embedding collaborator is not called);
when it is absent, empty or not a list, the endpoint recomputes the ranking
via `recommend_funds`, which calls the embedding collaborator whenever the
catalog is non-empty (with an empty catalog the recomputed ranking — and
hence the rendered table — is empty and no embedding call happens). -/
theorem export_pdf_funds_dispatch (embC : String → List ℚ)
    (genC : String → String) (catalog : List JVal) (data : Obj)
    (hvalid : findMissing data = none) :
    (∀ x xs, data.lookup "recommended_funds" = some (.arr (x :: xs)) →
      (∃ s, (export_pdf embC genC catalog data).1 =
        .pdfFile (build_content_pdf data (x :: xs) s)) ∧
      ((export_pdf embC genC catalog data).2.all (fun e => !e.isEmbed)) = true) ∧
    ((∀ x xs, ¬ data.lookup "recommended_funds" = some (.arr (x :: xs))) →
      (∃ s, (export_pdf embC genC catalog data).1 =
        .pdfFile (build_content_pdf data (recommend_funds embC catalog data 25).1 s)) ∧
      (catalog ≠ [] →
        CallEvent.embed (subText data) ∈ (export_pdf embC genC catalog data).2)) := by
  constructor
  · intro x xs hx
    by_cases hsum : pyStrip (dataStrOrEmpty data "llm_summary") = "" <;>
      simp [export_pdf, hvalid, hx, hsum, CallEvent.isEmbed]
  · intro hne
    have hsel :
        (match data.lookup "recommended_funds" with
          | some (.arr (x :: xs)) => (x :: xs, ([] : List CallEvent))
          | _ => recommend_funds embC catalog data 25) =
          recommend_funds embC catalog data 25 := by
      rcases hl : data.lookup "recommended_funds" with _ | v
      · rfl
      · rcases v with _ | b | q | s | xs | kvs
        · rfl
        · rfl
        · rfl
        · rfl
        · rcases xs with _ | ⟨x, xs⟩
          · rfl
          · exact absurd hl (hne x xs)
        · rfl
    constructor
    · by_cases hsum : pyStrip (dataStrOrEmpty data "llm_summary") = "" <;>
        simp [export_pdf, hvalid, hsel, hsum]
    · intro hcat
      rcases catalog with _ | ⟨c, cs⟩
      · exact absurd rfl hcat
      · by_cases hsum : pyStrip (dataStrOrEmpty data "llm_summary") = "" <;>
          simp [export_pdf, hvalid, hsel, hsum, recommend_funds_trace]

/-- C10 counterexample: on a validated request that supplies an explicitly
empty `recommended_funds` list while the catalog is empty, `/api/export_pdf`
renders a document whose table is empty, and the embedding collaborator is
never called — refuting the claim that recomputation always calls the
embedding collaborator and never yields an empty table. -/
theorem export_pdf_empty_provided_counterexample :
    (export_pdf (fun _ => [1]) (fun _ => "sum") [] c10Data).1.pdfRows = [] ∧
    ((export_pdf (fun _ => [1]) (fun _ => "sum") [] c10Data).2.all
      (fun e => !e.isEmbed)) = true :=
  ⟨rfl, rfl⟩

/-- C10 witness: on a validated request supplying a one-element
`recommended_funds` list, the endpoint renders exactly that list. -/
theorem export_pdf_funds_dispatch_witness :
    findMissing [("project_title", JVal.str "T"), ("project_location", JVal.str "L"),
      ("project_type", JVal.str "Ty"), ("project_desc", JVal.str "D"),
      ("project_stage", JVal.str "S"), ("amount_requested", JVal.str "100"),
      ("currency", JVal.str "EUR"), ("support_needed", JVal.arr [JVal.str "x"]),
      ("recommended_funds", JVal.arr [JVal.obj [("fund_name", JVal.str "F")]])] = none ∧
    List.lookup "recommended_funds"
      [("project_title", JVal.str "T"), ("project_location", JVal.str "L"),
       ("project_type", JVal.str "Ty"), ("project_desc", JVal.str "D"),
       ("project_stage", JVal.str "S"), ("amount_requested", JVal.str "100"),
       ("currency", JVal.str "EUR"), ("support_needed", JVal.arr [JVal.str "x"]),
       ("recommended_funds", JVal.arr [JVal.obj [("fund_name", JVal.str "F")]])] =
      some (JVal.arr [JVal.obj [("fund_name", JVal.str "F")]]) ∧
    (∃ s, (export_pdf (fun _ => [1]) (fun _ => "sum") []
      [("project_title", JVal.str "T"), ("project_location", JVal.str "L"),
       ("project_type", JVal.str "Ty"), ("project_desc", JVal.str "D"),
       ("project_stage", JVal.str "S"), ("amount_requested", JVal.str "100"),
       ("currency", JVal.str "EUR"), ("support_needed", JVal.arr [JVal.str "x"]),
       ("recommended_funds", JVal.arr [JVal.obj [("fund_name", JVal.str "F")]])]).1 =
      .pdfFile (build_content_pdf
        [("project_title", JVal.str "T"), ("project_location", JVal.str "L"),
         ("project_type", JVal.str "Ty"), ("project_desc", JVal.str "D"),
         ("project_stage", JVal.str "S"), ("amount_requested", JVal.str "100"),
         ("currency", JVal.str "EUR"), ("support_needed", JVal.arr [JVal.str "x"]),
         ("recommended_funds", JVal.arr [JVal.obj [("fund_name", JVal.str "F")]])]
        [JVal.obj [("fund_name", JVal.str "F")]] s)) :=
  ⟨rfl, rfl,
   ((export_pdf_funds_dispatch (fun _ => [1]) (fun _ => "sum") []
      [("project_title", JVal.str "T"), ("project_location", JVal.str "L"),
       ("project_type", JVal.str "Ty"), ("project_desc", JVal.str "D"),
       ("project_stage", JVal.str "S"), ("amount_requested", JVal.str "100"),
       ("currency", JVal.str "EUR"), ("support_needed", JVal.arr [JVal.str "x"]),
       ("recommended_funds", JVal.arr [JVal.obj [("fund_name", JVal.str "F")]])]
      rfl).1 (JVal.obj [("fund_name", JVal.str "F")]) [] rfl).1⟩

/-- The dot product is symmetric. -/
theorem dotL_comm (a b : List ℚ) : dotL a b = dotL b a := by
  unfold dotL
  rw [List.zipWith_comm_of_comm (· * ·) mul_comm]

/-- The dot product of a vector with itself is its sum of squares. -/
theorem dotL_self (a : List ℚ) : dotL a a = sumSq a := by
  induction a with
  | nil => rfl
  | cons x xs ih =>
      simp only [dotL, sumSq, List.zipWith_cons_cons, List.map_cons,
        List.sum_cons] at ih ⊢
      rw [ih]

/-- A sum of squares is nonnegative. -/
theorem sumSq_nonneg (a : List ℚ) : 0 ≤ sumSq a := by
  induction a with
  | nil => norm_num [sumSq]
  | cons x xs ih =>
      simp only [sumSq, List.map_cons, List.sum_cons] at ih ⊢
      nlinarith [mul_self_nonneg x]

/-- C8: the code's cosine similarity is symmetric — `cosine_similarity(a, b)`
and `cosine_similarity(b, a)` are the same value — and for every vector with
non-zero norm the similarity of a vector with itself is exactly 1 (the float
value is `num / √dsq`). -/
theorem cosine_similarity_symm_self :
    (∀ a b : List ℚ, cosine_similarity a b = cosine_similarity b a) ∧
    (∀ a : List ℚ, sumSq a ≠ 0 →
      ((cosine_similarity a a).num : ℝ) /
        Real.sqrt ((cosine_similarity a a).dsq : ℝ) = 1) := by
  constructor
  · intro a b
    unfold cosine_similarity
    rw [dotL_comm, mul_comm]
  · intro a ha
    have hpos : 0 < sumSq a := lt_of_le_of_ne (sumSq_nonneg a) (Ne.symm ha)
    show ((dotL a a : ℚ) : ℝ) / Real.sqrt ((sumSq a * sumSq a : ℚ) : ℝ) = 1
    rw [dotL_self]
    push_cast
    rw [Real.sqrt_mul_self (by exact_mod_cast hpos.le)]
    exact div_self (by exact_mod_cast hpos.ne.symm)

/-- C8 witness: the vector [1, 2] has non-zero norm and self-similarity 1. -/
theorem cosine_similarity_symm_self_witness :
    sumSq [(1 : ℚ), (2 : ℚ)] ≠ 0 ∧
    ((cosine_similarity [(1 : ℚ), (2 : ℚ)] [(1 : ℚ), (2 : ℚ)]).num : ℝ) /
      Real.sqrt ((cosine_similarity [(1 : ℚ), (2 : ℚ)] [(1 : ℚ), (2 : ℚ)]).dsq : ℝ) = 1 :=
  ⟨by norm_num [sumSq], cosine_similarity_symm_self.2 [1, 2] (by norm_num [sumSq])⟩

/-- The decidable comparison `CosSim.le` agrees with `≤` on the real float
values `num / √dsq` whenever both denominators are positive. -/
theorem CosSim.le_iff_rval (x y : CosSim) (hx : 0 < x.dsq) (hy : 0 < y.dsq) :
    CosSim.le x y = true ↔
      (x.num : ℝ) / Real.sqrt (x.dsq : ℝ) ≤ (y.num : ℝ) / Real.sqrt (y.dsq : ℝ) := by
  have hxR : (0 : ℝ) < (x.dsq : ℝ) := by exact_mod_cast hx
  have hyR : (0 : ℝ) < (y.dsq : ℝ) := by exact_mod_cast hy
  have hsx : (0 : ℝ) < Real.sqrt (x.dsq : ℝ) := Real.sqrt_pos.mpr hxR
  have hsy : (0 : ℝ) < Real.sqrt (y.dsq : ℝ) := Real.sqrt_pos.mpr hyR
  rw [div_le_div_iff₀ hsx hsy]
  unfold CosSim.le
  by_cases hxn : (0 : ℚ) ≤ x.num <;> by_cases hyn : (0 : ℚ) ≤ y.num
  · rw [if_pos hxn]
    simp only [Bool.and_eq_true, decide_eq_true_eq]
    have hxnR : (0 : ℝ) ≤ (x.num : ℝ) := by exact_mod_cast hxn
    have hynR : (0 : ℝ) ≤ (y.num : ℝ) := by exact_mod_cast hyn
    have e1 : (x.num : ℝ) * Real.sqrt (y.dsq : ℝ) * ((x.num : ℝ) * Real.sqrt (y.dsq : ℝ))
        = (x.num : ℝ) ^ 2 * (y.dsq : ℝ) := by
      rw [mul_mul_mul_comm, Real.mul_self_sqrt hyR.le]
      ring
    have e2 : (y.num : ℝ) * Real.sqrt (x.dsq : ℝ) * ((y.num : ℝ) * Real.sqrt (x.dsq : ℝ))
        = (y.num : ℝ) ^ 2 * (x.dsq : ℝ) := by
      rw [mul_mul_mul_comm, Real.mul_self_sqrt hxR.le]
      ring
    rw [mul_self_le_mul_self_iff (mul_nonneg hxnR hsy.le) (mul_nonneg hynR hsx.le),
      e1, e2]
    constructor
    · rintro ⟨-, h⟩
      exact_mod_cast h
    · intro h
      exact ⟨hyn, by exact_mod_cast h⟩
  · rw [if_pos hxn]
    have hd : decide ((0 : ℚ) ≤ y.num) = false := decide_eq_false hyn
    simp only [hd, Bool.false_and, Bool.false_eq_true, false_iff, not_le]
    have hynR : (y.num : ℝ) < 0 := by exact_mod_cast not_le.mp hyn
    have hxnR : (0 : ℝ) ≤ (x.num : ℝ) := by exact_mod_cast hxn
    calc (y.num : ℝ) * Real.sqrt (x.dsq : ℝ)
        < 0 := mul_neg_of_neg_of_pos hynR hsx
      _ ≤ (x.num : ℝ) * Real.sqrt (y.dsq : ℝ) := mul_nonneg hxnR hsy.le
  · rw [if_neg hxn]
    simp only [Bool.or_eq_true, decide_eq_true_eq]
    constructor
    · intro _
      have hxnR : (x.num : ℝ) < 0 := by exact_mod_cast not_le.mp hxn
      have hynR : (0 : ℝ) ≤ (y.num : ℝ) := by exact_mod_cast hyn
      calc (x.num : ℝ) * Real.sqrt (y.dsq : ℝ)
          ≤ 0 := (mul_neg_of_neg_of_pos hxnR hsy).le
        _ ≤ (y.num : ℝ) * Real.sqrt (x.dsq : ℝ) := mul_nonneg hynR hsx.le
    · intro _
      exact Or.inl hyn
  · rw [if_neg hxn]
    simp only [Bool.or_eq_true, decide_eq_true_eq]
    rw [or_iff_right hyn]
    have hxnR : (x.num : ℝ) < 0 := by exact_mod_cast not_le.mp hxn
    have hynR : (y.num : ℝ) < 0 := by exact_mod_cast not_le.mp hyn
    have e1 : -(y.num : ℝ) * Real.sqrt (x.dsq : ℝ) * (-(y.num : ℝ) * Real.sqrt (x.dsq : ℝ))
        = (y.num : ℝ) ^ 2 * (x.dsq : ℝ) := by
      rw [mul_mul_mul_comm, Real.mul_self_sqrt hxR.le]
      ring
    have e2 : -(x.num : ℝ) * Real.sqrt (y.dsq : ℝ) * (-(x.num : ℝ) * Real.sqrt (y.dsq : ℝ))
        = (x.num : ℝ) ^ 2 * (y.dsq : ℝ) := by
      rw [mul_mul_mul_comm, Real.mul_self_sqrt hyR.le]
      ring
    have key : (x.num : ℝ) * Real.sqrt (y.dsq : ℝ) ≤ (y.num : ℝ) * Real.sqrt (x.dsq : ℝ)
        ↔ -(y.num : ℝ) * Real.sqrt (x.dsq : ℝ) ≤ -(x.num : ℝ) * Real.sqrt (y.dsq : ℝ) := by
      rw [neg_mul, neg_mul, neg_le_neg_iff]
    rw [key, mul_self_le_mul_self_iff
        (mul_nonneg (by linarith) hsx.le) (mul_nonneg (by linarith) hsy.le),
      e1, e2]
    constructor
    · intro h
      exact_mod_cast h
    · intro h
      exact_mod_cast h

/-- Under `ValidSims`, every indexed similarity (including the out-of-range
default) has positive denominator. -/
theorem simAt_dsq_pos {sims : List CosSim} (h : ValidSims sims) (i : ℕ) :
    0 < (simAt sims i).dsq := by
  unfold simAt
  rw [List.getD_eq_getElem?_getD]
  rcases hlt : sims[i]? with _ | c
  · norm_num
  · exact h c (List.getElem?_mem hlt)

/-- Under `ValidSims`, the index comparison is total. -/
theorem rankLe_total {sims : List CosSim} (h : ValidSims sims) (i j : ℕ) :
    rankLe sims i j ∨ rankLe sims j i := by
  unfold rankLe
  rw [CosSim.le_iff_rval _ _ (simAt_dsq_pos h j) (simAt_dsq_pos h i),
    CosSim.le_iff_rval _ _ (simAt_dsq_pos h i) (simAt_dsq_pos h j)]
  exact le_total _ _

/-- Under `ValidSims`, the index comparison is transitive. -/
theorem rankLe_trans {sims : List CosSim} (h : ValidSims sims) (i j k : ℕ) :
    rankLe sims i j → rankLe sims j k → rankLe sims i k := by
  unfold rankLe
  rw [CosSim.le_iff_rval _ _ (simAt_dsq_pos h j) (simAt_dsq_pos h i),
    CosSim.le_iff_rval _ _ (simAt_dsq_pos h k) (simAt_dsq_pos h j),
    CosSim.le_iff_rval _ _ (simAt_dsq_pos h k) (simAt_dsq_pos h i)]
  intro h1 h2
  exact h2.trans h1

/-- Inserting `a` into a pairwise list preserves pairwiseness, provided `a`
relates forward to everything and everything the insertion passes over (the
elements `x` with `¬ r a x`) relates forward to `a`. -/
theorem pairwise_orderedInsert {α : Type} (r : α → α → Prop) [DecidableRel r]
    (P : α → α → Prop) (a : α) :
    ∀ l : List α, l.Pairwise P → (∀ x ∈ l, P a x) → (∀ x ∈ l, ¬ r a x → P x a) →
      (l.orderedInsert r a).Pairwise P := by
  intro l
  induction l with
  | nil =>
      intro _ _ _
      simp
  | cons y ys ih =>
      intro hp h1 h2
      rw [List.orderedInsert]
      by_cases hray : r a y
      · rw [if_pos hray]
        exact List.Pairwise.cons h1 hp
      · rw [if_neg hray]
        refine List.Pairwise.cons ?_ (ih (List.pairwise_cons.mp hp).2
          (fun x hx => h1 x (List.mem_cons_of_mem y hx))
          (fun x hx hr => h2 x (List.mem_cons_of_mem y hx) hr))
        intro x hx
        rcases (List.mem_orderedInsert _).mp hx with hxa | hxys
        · subst hxa
          exact h2 y (List.mem_cons_self y ys) hray
        · exact (List.pairwise_cons.mp hp).1 x hxys

/-- Stability of the index sort: starting from a strictly increasing index
list, any two output positions whose similarities the comparator considers
equal (related both ways) keep their original index order. -/
theorem insertionSort_index_stable (sims : List CosSim) :
    ∀ l : List ℕ, l.Pairwise (· < ·) →
      (List.insertionSort (rankLe sims) l).Pairwise
        (fun i j => rankLe sims i j → rankLe sims j i → i < j) := by
  intro l
  induction l with
  | nil =>
      intro _
      simp
  | cons a l ih =>
      intro hl
      rw [List.insertionSort]
      refine pairwise_orderedInsert _ _ a _ (ih (List.pairwise_cons.mp hl).2) ?_ ?_
      · intro x hx _ _
        exact (List.pairwise_cons.mp hl).1 x ((List.mem_insertionSort _).mp hx)
      · intro x _ hnrax _ hax
        exact absurd hax hnrax

/-- Under `ValidSims`, the index sort is sorted for the descending
comparison. -/
theorem sorted_rankIndices {sims : List CosSim} (h : ValidSims sims) :
    (rankIndices sims).Pairwise (rankLe sims) := by
  haveI : IsTotal ℕ (rankLe sims) := ⟨rankLe_total h⟩
  haveI : IsTrans ℕ (rankLe sims) := ⟨fun i j k => rankLe_trans h i j k⟩
  exact List.sorted_insertionSort (rankLe sims) (List.range sims.length)

/-- Every index produced by the sort is an in-range catalog index. -/
theorem rankIndices_lt {sims : List CosSim} :
    ∀ i ∈ rankIndices sims, i < sims.length := by
  intro i hi
  exact List.mem_range.mp
    ((List.perm_insertionSort (rankLe sims) (List.range sims.length)).mem_iff.mp hi)

/-- An indexed similarity of the mapped `sims` list is the cosine similarity
of the query against the indexed catalog item. -/
theorem simAt_map_funds (q : List ℚ) (funds : List JVal) (i : ℕ)
    (hi : i < funds.length) :
    simAt (funds.map (fun f => cosine_similarity q (getEmbedding f))) i =
      cosine_similarity q (getEmbedding (funds.getD i .null)) := by
  unfold simAt
  rw [List.getD_eq_getElem?_getD, List.getElem?_map,
    List.getElem?_eq_getElem (by simpa using hi), List.getD_eq_getElem?_getD,
    List.getElem?_eq_getElem hi]
  rfl

/-- Non-degenerate query and catalog embeddings give positive similarity
denominators. -/
theorem validSims_map (q : List ℚ) (funds : List JVal)
    (hq : sumSq q ≠ 0) (hf : ∀ f ∈ funds, sumSq (getEmbedding f) ≠ 0) :
    ValidSims (funds.map (fun f => cosine_similarity q (getEmbedding f))) := by
  intro c hc
  rw [List.mem_map] at hc
  obtain ⟨f, hfm, rfl⟩ := hc
  show 0 < sumSq q * sumSq (getEmbedding f)
  exact mul_pos (lt_of_le_of_ne (sumSq_nonneg q) (Ne.symm hq))
    (lt_of_le_of_ne (sumSq_nonneg _) (Ne.symm (hf f hfm)))

/-- C1: for every catalog, submission, top-k and embedding oracle whose query
embedding and catalog embeddings are non-degenerate (non-zero norm, matching
lengths — the regime where the float cosine similarity is a number), the
ranker returns at most `top_k` items; every returned item is an element of
the catalog; the returned sequence is the image of an index list whose real
cosine-similarity values `num / √dsq` are non-increasing; and indices with
equal similarity appear in increasing, i.e. original catalog, order. -/
theorem recommend_funds_ranked (embC : String → List ℚ) (funds : List JVal)
    (submission : Obj) (top_k : ℕ)
    (hq : sumSq (embC (subText submission)) ≠ 0)
    (hf : ∀ f ∈ funds, sumSq (getEmbedding f) ≠ 0)
    (hlen : ∀ f ∈ funds,
      (getEmbedding f).length = (embC (subText submission)).length) :
    (recommend_funds embC funds submission top_k).1.length ≤ top_k ∧
    (∀ x ∈ (recommend_funds embC funds submission top_k).1, x ∈ funds) ∧
    (∃ idxs : List ℕ,
      (recommend_funds embC funds submission top_k).1 =
        idxs.map (fun i => funds.getD i .null) ∧
      (∀ i ∈ idxs, i < funds.length) ∧
      (∀ i ∈ idxs, simAt (simsOf embC funds submission) i =
        cosine_similarity (embC (subText submission))
          (getEmbedding (funds.getD i .null))) ∧
      idxs.Pairwise (fun i j =>
        ((simAt (simsOf embC funds submission) j).num : ℝ) /
            Real.sqrt ((simAt (simsOf embC funds submission) j).dsq : ℝ) ≤
          ((simAt (simsOf embC funds submission) i).num : ℝ) /
            Real.sqrt ((simAt (simsOf embC funds submission) i).dsq : ℝ) ∧
        (((simAt (simsOf embC funds submission) i).num : ℝ) /
            Real.sqrt ((simAt (simsOf embC funds submission) i).dsq : ℝ) =
          ((simAt (simsOf embC funds submission) j).num : ℝ) /
            Real.sqrt ((simAt (simsOf embC funds submission) j).dsq : ℝ) →
          i < j))) := by
  rcases funds with _ | ⟨f0, fs⟩
  · exact ⟨by simp [recommend_funds], by simp [recommend_funds],
      [], rfl, by simp, by simp, List.Pairwise.nil⟩
  · have hvalid : ValidSims (simsOf embC (f0 :: fs) submission) :=
      validSims_map _ _ hq hf
    have hsorted : (rankIndices (simsOf embC (f0 :: fs) submission)).Pairwise
        (rankLe (simsOf embC (f0 :: fs) submission)) := sorted_rankIndices hvalid
    have hstable : (rankIndices (simsOf embC (f0 :: fs) submission)).Pairwise
        (fun i j => rankLe (simsOf embC (f0 :: fs) submission) i j →
          rankLe (simsOf embC (f0 :: fs) submission) j i → i < j) :=
      insertionSort_index_stable (simsOf embC (f0 :: fs) submission)
        (List.range (simsOf embC (f0 :: fs) submission).length)
        (List.pairwise_lt_range _)
    have hres : (recommend_funds embC (f0 :: fs) submission top_k).1 =
        ((rankIndices (simsOf embC (f0 :: fs) submission)).take top_k).map
          (fun i => (f0 :: fs).getD i .null) := rfl
    have hcomb := List.Pairwise.sublist (List.take_sublist top_k _)
      (hsorted.and hstable)
    have hlt : ∀ i ∈ (rankIndices (simsOf embC (f0 :: fs) submission)).take top_k,
        i < (f0 :: fs).length := by
      intro i hi
      have := rankIndices_lt i ((List.take_sublist _ _).subset hi)
      simpa [simsOf] using this
    refine ⟨?_, ?_,
      (rankIndices (simsOf embC (f0 :: fs) submission)).take top_k,
      hres, hlt, ?_, ?_⟩
    · rw [hres, List.length_map, List.length_take]
      exact min_le_left _ _
    · intro x hx
      rw [hres, List.mem_map] at hx
      obtain ⟨i, hi, rfl⟩ := hx
      have hilt := hlt i hi
      rw [List.getD_eq_getElem?_getD, List.getElem?_eq_getElem hilt]
      exact List.getElem_mem hilt
    · intro i hi
      exact simAt_map_funds _ _ i (hlt i hi)
    · refine List.Pairwise.imp_of_mem ?_ hcomb
      intro i j _ _ hij
      obtain ⟨h1, h2⟩ := hij
      refine ⟨(CosSim.le_iff_rval _ _ (simAt_dsq_pos hvalid j)
        (simAt_dsq_pos hvalid i)).mp h1, ?_⟩
      intro heq
      exact h2 h1 ((CosSim.le_iff_rval _ _ (simAt_dsq_pos hvalid i)
        (simAt_dsq_pos hvalid j)).mpr (le_of_eq heq))

/-- C1 witness: the one-item catalog `[c1Fund]` with the constant embedding
oracle satisfies the non-degeneracy hypotheses, and the ranked result enjoys
all the stated properties. -/
theorem recommend_funds_ranked_witness :
    (sumSq (c1Emb (subText [])) ≠ 0 ∧
     (∀ f ∈ [c1Fund], sumSq (getEmbedding f) ≠ 0) ∧
     (∀ f ∈ [c1Fund], (getEmbedding f).length = (c1Emb (subText [])).length)) ∧
    ((recommend_funds c1Emb [c1Fund] [] 25).1.length ≤ 25 ∧
     (∀ x ∈ (recommend_funds c1Emb [c1Fund] [] 25).1, x ∈ [c1Fund]) ∧
     (∃ idxs : List ℕ,
       (recommend_funds c1Emb [c1Fund] [] 25).1 =
         idxs.map (fun i => [c1Fund].getD i .null) ∧
       (∀ i ∈ idxs, i < [c1Fund].length) ∧
       (∀ i ∈ idxs, simAt (simsOf c1Emb [c1Fund] []) i =
         cosine_similarity (c1Emb (subText []))
           (getEmbedding ([c1Fund].getD i .null))) ∧
       idxs.Pairwise (fun i j =>
         ((simAt (simsOf c1Emb [c1Fund] []) j).num : ℝ) /
             Real.sqrt ((simAt (simsOf c1Emb [c1Fund] []) j).dsq : ℝ) ≤
           ((simAt (simsOf c1Emb [c1Fund] []) i).num : ℝ) /
             Real.sqrt ((simAt (simsOf c1Emb [c1Fund] []) i).dsq : ℝ) ∧
         (((simAt (simsOf c1Emb [c1Fund] []) i).num : ℝ) /
             Real.sqrt ((simAt (simsOf c1Emb [c1Fund] []) i).dsq : ℝ) =
           ((simAt (simsOf c1Emb [c1Fund] []) j).num : ℝ) /
             Real.sqrt ((simAt (simsOf c1Emb [c1Fund] []) j).dsq : ℝ) →
           i < j)))) := by
  have h1 : sumSq (c1Emb (subText [])) ≠ 0 := by norm_num [c1Emb, sumSq]
  have h2 : ∀ f ∈ [c1Fund], sumSq (getEmbedding f) ≠ 0 := by
    intro f hf
    simp only [List.mem_singleton] at hf
    subst hf
    show sumSq [(1 : ℚ)] ≠ 0
    norm_num [sumSq]
  have h3 : ∀ f ∈ [c1Fund], (getEmbedding f).length = (c1Emb (subText [])).length := by
    intro f hf
    simp only [List.mem_singleton] at hf
    subst hf
    rfl
  exact ⟨⟨h1, h2, h3⟩, recommend_funds_ranked c1Emb [c1Fund] [] 25 h1 h2 h3⟩

end FilmShake
